import Mathlib

/-!
Shallow embedding of the Log4C logging library (src/include/logger.h) and
verification of its specification.

Modelling conventions:
* `enum LogLevel` becomes an inductive type; the C code compares enum values
  as ints, modelled by `LogLevel.toNat` comparisons.
* `struct Logger` becomes a structure.  The C string fields are modelled by
  their values; the `tags[MAX_TAGS][MAX_TAG_LENGTH]` array together with
  `num_tags` is modelled by the list of its first `num_tags` rows (rows past
  `num_tags` are never written nor read by any operation).
* `strftime` (a libc collaborator, not repository code) is modelled for the
  conversion specifiers the repository uses (`%Y %m %d %H %M %S`, literals,
  `%%`); the 20-byte `timeBuffer` of `log_message` is modelled by
  `strftimeBuf`, which returns `none` when the rendering does not fit
  (C11 7.27.3.1: on overflow strftime returns 0 and the buffer contents are
  indeterminate).
* `printf`-style rendering of the user format string is modelled by
  `vformat` over an explicit argument list (specifiers the repository uses).
* Console and file emission of `log_message` are modelled as the optional
  line written to each sink (`LogOutput`); a line is the tuple of fields the
  C code prints, in order.
* The filesystem is a map from paths to contents plus an environment that
  decides which `fopen`/`rename` calls fail; `rotate_log`, `init_logger` and
  `set_log_file` become state transformers over it.  `fprintf(stderr, ...)`
  output is collected in a `stderr` list.
* For `close_logger` a resource-level model tracks open `FILE` handles and
  live heap allocations, counting the faults (`fclose` of a closed handle,
  `free` of a dead allocation) that the C abstract machine would commit.
-/

/-- Severity levels, in declaration order of `enum LogLevel` (logger.h:16). -/
inductive LogLevel
  | DEBUG
  | INFO
  | SUCCESS
  | WARNING
  | ERROR
deriving DecidableEq

/-- Integer value of an enum constant; the C code compares levels as ints. -/
def LogLevel.toNat : LogLevel → Nat
  | .DEBUG => 0
  | .INFO => 1
  | .SUCCESS => 2
  | .WARNING => 3
  | .ERROR => 4

/-- The level names resolved by the `switch` in `log_message` (logger.h:171).
The C `default: "UNKNOWN"` arm is unreachable here because the inductive
type has no out-of-range values. -/
def level_name : LogLevel → String
  | .DEBUG => "DEBUG"
  | .INFO => "INFO"
  | .SUCCESS => "SUCCESS"
  | .WARNING => "WARNING"
  | .ERROR => "ERROR"

/-- Broken-down calendar time: the `struct tm` fields consumed by the
conversion specifiers the repository uses. -/
structure Tm where
  year : Nat
  month : Nat
  day : Nat
  hour : Nat
  minute : Nat
  second : Nat
deriving DecidableEq

/-- Decimal digit character (used to model strftime's zero-padded fields). -/
def decDigit (n : Nat) : Char :=
  Char.ofNat (48 + n % 10)

/-- strftime's two-digit zero-padded decimal field (`%m %d %H %M %S`). -/
def pad2 (n : Nat) : String :=
  String.mk [decDigit (n / 10), decDigit n]

/-- strftime's `%Y` field for years 0..9999 (four decimal digits,
zero-padded; years outside this range do not arise from `struct tm`
in the scenarios considered). -/
def pad4 (n : Nat) : String :=
  String.mk [decDigit (n / 1000), decDigit (n / 100), decDigit (n / 10), decDigit n]

/-- Model of strftime's pattern interpretation for the specifiers the
repository uses; other characters (including unrecognised `%`-sequences,
whose behaviour libc leaves undefined) are kept literally. -/
def strftimeChars : List Char → Tm → String
  | [], _ => ""
  | '%' :: '%' :: rest, t => String.singleton '%' ++ strftimeChars rest t
  | '%' :: 'Y' :: rest, t => pad4 t.year ++ strftimeChars rest t
  | '%' :: 'm' :: rest, t => pad2 t.month ++ strftimeChars rest t
  | '%' :: 'd' :: rest, t => pad2 t.day ++ strftimeChars rest t
  | '%' :: 'H' :: rest, t => pad2 t.hour ++ strftimeChars rest t
  | '%' :: 'M' :: rest, t => pad2 t.minute ++ strftimeChars rest t
  | '%' :: 'S' :: rest, t => pad2 t.second ++ strftimeChars rest t
  | c :: rest, t => String.singleton c ++ strftimeChars rest t

/-- strftime with an unbounded buffer. -/
def strftimeStr (fmt : String) (t : Tm) : String :=
  strftimeChars fmt.data t

/-- strftime into a buffer of `maxsize` bytes, as `log_message` calls it on
its 20-byte `timeBuffer` (logger.h:165,168): `some` of the rendering when
it fits together with the terminating NUL, `none` (indeterminate buffer
contents, C11 7.27.3.1) otherwise. -/
def strftimeBuf (maxsize : Nat) (fmt : String) (t : Tm) : Option String :=
  let s := strftimeStr fmt t
  if s.length < maxsize then some s else none

/-- A printf-style variadic argument. -/
inductive FmtArg
  | argStr (s : String)
  | argInt (n : Int)
deriving DecidableEq

/-- Model of `vprintf`/`vfprintf` rendering of a user format string against
a VALID argument pack, for the specifiers the repository uses
(`%s`, `%d`, `%lld`, `%lu`, `%%`); a specifier whose argument is missing or
of the wrong C type is undefined behaviour in C and is kept literally here. -/
def vformat : List Char → List FmtArg → String
  | [], _ => ""
  | '%' :: '%' :: rest, args => String.singleton '%' ++ vformat rest args
  | '%' :: 's' :: rest, FmtArg.argStr s :: args => s ++ vformat rest args
  | '%' :: 'd' :: rest, FmtArg.argInt n :: args => toString n ++ vformat rest args
  | '%' :: 'l' :: 'l' :: 'd' :: rest, FmtArg.argInt n :: args => toString n ++ vformat rest args
  | '%' :: 'l' :: 'u' :: rest, FmtArg.argInt n :: args => toString n ++ vformat rest args
  | c :: rest, args => String.singleton c ++ vformat rest args

/-- Embeds `MAX_TAGS` (logger.h:13). -/
def MAX_TAGS : Nat := 10

/-- Embeds `MAX_TAG_LENGTH` (logger.h:14). -/
def MAX_TAG_LENGTH : Nat := 20

/-- Embeds `struct Logger` (logger.h:24).  A `FILE *` handle is modelled by the
path it was opened on (`none` = `NULL`); the C int flags are modelled as
booleans (nonzero = true); the strdup'd `prefix` string is the field
`prefixStr`; `tags`/`num_tags` are modelled by the list of the first
`num_tags` rows of the array. -/
structure Logger where
  console_level : LogLevel
  file_level : LogLevel
  file : Option String
  file_path : String
  date_format : String
  prefixStr : String
  log_to_file : Bool
  include_thread_id : Bool
  include_process_id : Bool
  tags : List String
deriving DecidableEq

/-- One emitted line, as the tuple of fields `log_message` prints in order:
timestamp buffer (`none` = indeterminate strftime overflow), level name,
prefix, optional thread id, optional process id, rendered message. -/
structure LogLine where
  timestamp : Option String
  levelName : String
  prefixStr : String
  threadId : Option Nat
  processId : Option Nat
  message : String
deriving DecidableEq

/-- The observable emission of one `log_message` call: the line written to
the console sink and the line written to the file sink, when any. -/
structure LogOutput where
  console : Option LogLine
  fileOut : Option LogLine
deriving DecidableEq

/-- Embeds `log_message` (logger.h:159).  `t` is the wall clock reading, `tid` and
`pid` the thread and process ids the OS supplies, `args` the variadic
arguments.

The source starts `args` once (line 193), renders the console line with
`vprintf` (line 203), and then renders the file line (line 215) by passing
the SAME `va_list` to `vfprintf` without an intervening `va_copy` or
`va_end`/`va_start`.  After the `vprintf` call the value of `args` is
indeterminate (C11 7.16.1), so the text `vfprintf` produces for the file is
not determined by the call's inputs; the parameter `indet` stands for
whatever that undefined evaluation yields. -/
def log_message (lg : Logger) (level : LogLevel) (t : Tm) (tid pid : Nat)
    (format : String) (args : List FmtArg) (indet : String) : LogOutput :=
  if level.toNat < lg.console_level.toNat ∧ level.toNat < lg.file_level.toNat then
    ⟨none, none⟩
  else
    let timeBuffer := strftimeBuf 20 lg.date_format t
    let consoleLine : LogLine :=
      { timestamp := timeBuffer
        levelName := level_name level
        prefixStr := lg.prefixStr
        threadId := if lg.include_thread_id then some tid else none
        processId := if lg.include_process_id then some pid else none
        message := vformat format.data args }
    let fileLine : LogLine := { consoleLine with message := indet }
    { console := some consoleLine
      fileOut :=
        if lg.log_to_file = true ∧ lg.file.isSome = true ∧ lg.file_level.toNat ≤ level.toNat then
          some fileLine
        else
          none }

/-- Embeds `set_log_prefix` (logger.h:76), value level (the free/strdup pair is
covered by the resource model below). -/
def set_log_prefix (lg : Logger) (p : String) : Logger :=
  { lg with prefixStr := p }

/-- Embeds `set_log_levels` (logger.h:105). -/
def set_log_levels (lg : Logger) (console_level file_level : LogLevel) : Logger :=
  { lg with console_level := console_level, file_level := file_level }

/-- Embeds `set_date_format` (logger.h:116), value level. -/
def set_date_format (lg : Logger) (date_format : String) : Logger :=
  { lg with date_format := date_format }

/-- Embeds `set_log_to_file` (logger.h:127). -/
def set_log_to_file (lg : Logger) (flag : Bool) : Logger :=
  { lg with log_to_file := flag }

/-- Embeds `set_include_thread_id` (logger.h:137). -/
def set_include_thread_id (lg : Logger) (flag : Bool) : Logger :=
  { lg with include_thread_id := flag }

/-- Embeds `set_include_process_id` (logger.h:147). -/
def set_include_process_id (lg : Logger) (flag : Bool) : Logger :=
  { lg with include_process_id := flag }

/-- Embeds `add_tag` (logger.h:229): append the tag, truncated by
`strncpy(.., MAX_TAG_LENGTH - 1)` plus forced NUL to at most 19 characters,
when the current count is below `MAX_TAGS`; otherwise do nothing. -/
def add_tag (lg : Logger) (tag : String) : Logger :=
  if lg.tags.length < MAX_TAGS then
    { lg with tags := lg.tags ++ [tag.take (MAX_TAG_LENGTH - 1)] }
  else
    lg

/-- Embeds `log_timestamp` (logger.h:244): emit a DEBUG message formatting the tag
argument and the millisecond reading `ms` through `log_message`. -/
def log_timestamp (lg : Logger) (tag : String) (t : Tm) (tid pid : Nat)
    (ms : Int) (indet : String) : LogOutput :=
  log_message lg .DEBUG t tid pid "[%s] Timestamp: %lld ms"
    [FmtArg.argStr tag, FmtArg.argInt ms] indet

/-- An abstract filesystem: the contents stored under each path, plus the
environment's verdict on which `fopen(path, "a")` and `rename(old, new)`
calls fail (permissions, missing directories, ...). -/
structure FS where
  disk : String → Option String
  openFails : String → Bool
  renameFails : String → String → Bool

/-- Model of `fopen(path, "a")`: fails when the environment says so; otherwise
yields an append handle on `path` (modelled by the path itself), creating
an empty file when none exists. -/
def fopenA (fs : FS) (path : String) : FS × Option String :=
  if fs.openFails path then
    (fs, none)
  else
    match fs.disk path with
    | some _ => (fs, some path)
    | none =>
      ({ fs with disk := fun p => if p = path then some "" else fs.disk p }, some path)

/-- Model of `rename(old, new)`: on success, moves the contents of `old` to `new`,
overwriting any previous file at `new`; fails (leaving the disk unchanged)
when the environment says so or `old` does not exist.  Returns whether it
succeeded (the C result code). -/
def fsRename (fs : FS) (oldP newP : String) : FS × Bool :=
  if fs.renameFails oldP newP then
    (fs, false)
  else
    match fs.disk oldP with
    | none => (fs, false)
    | some c =>
      ({ fs with
          disk := fun p => if p = newP then some c else if p = oldP then none else fs.disk p },
        true)

/-- The filesystem operations a call performs, in order (for frame
reasoning about calls that must not touch the filesystem). -/
inductive FSEvent
  | sizeCheck
  | closeHandle
  | renameFile
  | openFile
deriving DecidableEq

/-- Result of `init_logger`: the logger, the filesystem, and the lines the
call printed to stderr. -/
structure InitResult where
  logger : Logger
  fs : FS
  stderr : List String

/-- Embeds `init_logger` (logger.h:50): populate every field, defaulting the date
format to `"%Y-%m-%d %H:%M:%S"` when `date_format` is NULL (`none`), the
prefix to `""`, the tag count to 0 and the file handle to NULL; when
`log_to_file` is set, eagerly `fopen(file_path, "a")`, storing whatever it
returns (possibly NULL) and reporting a failure on stderr. -/
def init_logger (console_level file_level : LogLevel) (file_path : String)
    (date_format : Option String) (log_to_file include_thread_id include_process_id : Bool)
    (fs : FS) : InitResult :=
  let lg : Logger :=
    { console_level := console_level
      file_level := file_level
      file := none
      file_path := file_path
      date_format := date_format.getD "%Y-%m-%d %H:%M:%S"
      prefixStr := ""
      log_to_file := log_to_file
      include_thread_id := include_thread_id
      include_process_id := include_process_id
      tags := [] }
  if log_to_file then
    match fopenA fs file_path with
    | (fs1, some h) => ⟨{ lg with file := some h }, fs1, []⟩
    | (fs1, none) => ⟨lg, fs1, ["Error opening log file " ++ file_path ++ "\n"]⟩
  else
    ⟨lg, fs, []⟩

/-- Result of `set_log_file` / `rotate_log`. -/
structure FileOpResult where
  logger : Logger
  fs : FS
  stderr : List String

/-- Embeds `set_log_file` (logger.h:87): replace the path, close the current
handle if open, reopen the new path in append mode, store whatever `fopen`
returns (possibly NULL) and report a failure on stderr. -/
def set_log_file (lg : Logger) (file_path : String) (fs : FS) : FileOpResult :=
  let lg1 := { lg with file_path := file_path }
  match fopenA fs file_path with
  | (fs1, some h) => ⟨{ lg1 with file := some h }, fs1, []⟩
  | (fs1, none) =>
    ⟨{ lg1 with file := none }, fs1, ["Error opening log file " ++ file_path ++ "\n"]⟩

/-- Result of `rotate_log`, additionally recording the filesystem
operations performed. -/
structure RotateResult where
  logger : Logger
  fs : FS
  events : List FSEvent
  stderr : List String

/-- Embeds `rotate_log` (logger.h:258): nothing happens when the handle is NULL;
otherwise seek to the end and read the size (`fseek`/`ftell`); when it is
at least `max_size`, close the handle, `rename` the path to
`<path>.old` — the return value of `rename` is not checked — reopen the
path in append mode, store whatever `fopen` returns (possibly NULL) and
report a reopen failure on stderr. -/
def rotate_log (lg : Logger) (max_size : Int) (fs : FS) : RotateResult :=
  match lg.file with
  | none => ⟨lg, fs, [], []⟩
  | some h =>
    let file_size : Int := ((fs.disk h).getD "").length
    if max_size ≤ file_size then
      let new_file_path := lg.file_path ++ ".old"
      let fs1 := (fsRename fs lg.file_path new_file_path).1
      match fopenA fs1 lg.file_path with
      | (fs2, some h2) =>
        ⟨{ lg with file := some h2 }, fs2,
          [.sizeCheck, .closeHandle, .renameFile, .openFile], []⟩
      | (fs2, none) =>
        ⟨{ lg with file := none }, fs2,
          [.sizeCheck, .closeHandle, .renameFile, .openFile],
          ["Error opening log file " ++ lg.file_path ++ "\n"]⟩
    else
      ⟨lg, fs, [.sizeCheck], []⟩

/-- Resource-level state for the shutdown path: the open `FILE` handles,
the live heap allocations, and a count of the C-abstract-machine faults
committed so far (`fclose` of an already-closed stream, `free` of an
already-freed block). -/
structure ResState where
  openFiles : List Nat
  liveAllocs : List Nat
  faults : Nat
deriving DecidableEq

/-- Model of `fclose(h)`: closing an open handle removes it; closing an
already-closed handle is undefined behaviour, counted as a fault. -/
def cFclose (h : Nat) (s : ResState) : ResState :=
  if h ∈ s.openFiles then
    { s with openFiles := s.openFiles.erase h }
  else
    { s with faults := s.faults + 1 }

/-- Model of `free(p)` of a non-NULL pointer: freeing a live block removes it;
freeing an already-freed block is undefined behaviour, counted as a
fault. -/
def cFree (p : Nat) (s : ResState) : ResState :=
  if p ∈ s.liveAllocs then
    { s with liveAllocs := s.liveAllocs.erase p }
  else
    { s with faults := s.faults + 1 }

/-- Resource view of `struct Logger` for the shutdown path: the handle id
behind `file` and the allocation ids behind the three strdup'd strings
`file_path`, `date_format`, `prefix`. -/
structure LoggerRes where
  file : Option Nat
  file_path : Nat
  date_format : Nat
  prefixPtr : Nat
deriving DecidableEq

/-- Embeds `close_logger` (logger.h:280): `fclose` the handle when the field is
non-NULL, then `free` the three strings.  The struct itself is not
modified: no field is set to NULL, so the returned logger is the argument
unchanged. -/
def close_logger (lg : LoggerRes) (s : ResState) : LoggerRes × ResState :=
  let s1 := match lg.file with
    | some h => cFclose h s
    | none => s
  let s2 := cFree lg.file_path s1
  let s3 := cFree lg.date_format s2
  let s4 := cFree lg.prefixPtr s3
  (lg, s4)

/-- Filesystem with no files and no failing operations. -/
def fsEmpty : FS := ⟨fun _ => none, fun _ => false, fun _ _ => false⟩

/-- Concrete sample logger used to instantiate universally quantified
statements. -/
def lgSample : Logger :=
  { console_level := .INFO
    file_level := .WARNING
    file := some "app.log"
    file_path := "app.log"
    date_format := "%Y-%m-%d %H:%M:%S"
    prefixStr := "[APP]"
    log_to_file := true
    include_thread_id := true
    include_process_id := false
    tags := [] }

/-- Concrete sample wall-clock reading. -/
def tmSample : Tm := ⟨2024, 5, 7, 9, 30, 5⟩

/-- A path is never equal to itself extended by the ".old" suffix. -/
theorem append_old_ne (s : String) : s ≠ s ++ ".old" := by
  intro h
  have hl := congrArg String.length h
  rw [String.length_append] at hl
  have h4 : (".old" : String).length = 4 := rfl
  omega

/-- C1: a message at level L is written to the console iff `L >= C` or
`L >= F`, written to the file iff file logging is enabled, the handle is
non-NULL and `L >= F`, and when L is below both thresholds `log_message`
returns immediately with no output on either sink. -/
theorem log_message_sink_gating (lg : Logger) (level : LogLevel) (t : Tm) (tid pid : Nat)
    (format : String) (args : List FmtArg) (indet : String) :
    ((log_message lg level t tid pid format args indet).console.isSome = true ↔
      lg.console_level.toNat ≤ level.toNat ∨ lg.file_level.toNat ≤ level.toNat)
  ∧ ((log_message lg level t tid pid format args indet).fileOut.isSome = true ↔
      lg.log_to_file = true ∧ lg.file.isSome = true ∧ lg.file_level.toNat ≤ level.toNat)
  ∧ (level.toNat < lg.console_level.toNat → level.toNat < lg.file_level.toNat →
      log_message lg level t tid pid format args indet = ⟨none, none⟩) := by
  by_cases hgate : level.toNat < lg.console_level.toNat ∧ level.toNat < lg.file_level.toNat
  · have hno : ¬(lg.console_level.toNat ≤ level.toNat ∨ lg.file_level.toNat ≤ level.toNat) := by
      omega
    simp [log_message, hgate, hno]
  · by_cases hfile : lg.log_to_file = true ∧ lg.file.isSome = true ∧
      lg.file_level.toNat ≤ level.toNat
    · have hor : lg.console_level.toNat ≤ level.toNat ∨ lg.file_level.toNat ≤ level.toNat := by
        rcases hfile with ⟨-, -, hfl⟩
        omega
      simp [log_message, hgate, hfile, hor]
    · have hor : lg.console_level.toNat ≤ level.toNat ∨ lg.file_level.toNat ≤ level.toNat := by
        omega
      simp [log_message, hgate, hfile, hor]
      omega

/-- Witness for `log_message_sink_gating`: a DEBUG message against
thresholds INFO/WARNING is suppressed entirely. -/
theorem log_message_sink_gating_witness :
    log_message lgSample .DEBUG tmSample 1 2 "x" [] "" = ⟨none, none⟩ :=
  (log_message_sink_gating lgSample .DEBUG tmSample 1 2 "x" [] "").2.2
    (by decide) (by decide)

/-- C7: `add_tag` appends the tag truncated to 19 characters while the
count is below the capacity of 10 and is a silent no-op otherwise; adding
11 tags retains exactly the first 10, truncated, in insertion order. -/
theorem add_tag_capacity (lg lg0 : Logger) (tag : String)
    (u1 u2 u3 u4 u5 u6 u7 u8 u9 u10 u11 : String) (h0 : lg0.tags = []) :
    (lg.tags.length < MAX_TAGS →
      (add_tag lg tag).tags = lg.tags ++ [tag.take (MAX_TAG_LENGTH - 1)])
  ∧ (MAX_TAGS ≤ lg.tags.length → add_tag lg tag = lg)
  ∧ ([u1, u2, u3, u4, u5, u6, u7, u8, u9, u10, u11].foldl add_tag lg0).tags =
      [u1, u2, u3, u4, u5, u6, u7, u8, u9, u10].map
        (fun s => s.take (MAX_TAG_LENGTH - 1)) := by
  refine ⟨?_, ?_, ?_⟩
  · intro h
    rw [add_tag, if_pos h]
  · intro h
    rw [add_tag, if_neg (by omega)]
  · cases lg0
    simp only at h0
    subst h0
    simp [add_tag, MAX_TAGS, MAX_TAG_LENGTH]

/-- Witness for `add_tag_capacity`: a 23-character tag is stored as its
first 19 characters. -/
theorem add_tag_capacity_witness :
    (add_tag lgSample "12345678901234567890123").tags = ["1234567890123456789"] :=
  ((add_tag_capacity lgSample lgSample "12345678901234567890123"
      "a" "a" "a" "a" "a" "a" "a" "a" "a" "a" "a" rfl).1 (by decide)).trans (by decide)

/-- C9: the stored tags influence no output: two loggers that differ only
in the `tags` field (array contents and `num_tags`) produce identical
console and file output on every `log_message` and `log_timestamp` call. -/
theorem tags_do_not_influence_output (lg : Logger) (ts1 ts2 : List String)
    (level : LogLevel) (t : Tm) (tid pid : Nat) (format : String)
    (args : List FmtArg) (indet : String) (tag : String) (ms : Int) :
    log_message { lg with tags := ts1 } level t tid pid format args indet =
      log_message { lg with tags := ts2 } level t tid pid format args indet
  ∧ log_timestamp { lg with tags := ts1 } tag t tid pid ms indet =
      log_timestamp { lg with tags := ts2 } tag t tid pid ms indet := by
  cases lg
  exact ⟨rfl, rfl⟩

/-- C10: when the file handle is NULL, `rotate_log` is a complete no-op:
the logger and the filesystem are returned unchanged and no filesystem
operation (not even the size check) is performed. -/
theorem rotate_log_null_handle_noop (lg : Logger) (fs : FS) (max_size : Int)
    (h : lg.file = none) :
    rotate_log lg max_size fs = ⟨lg, fs, [], []⟩ := by
  rw [rotate_log, h]

/-- Witness for `rotate_log_null_handle_noop`. -/
theorem rotate_log_null_handle_noop_witness :
    rotate_log { lgSample with file := none } 5 fsEmpty =
      ⟨{ lgSample with file := none }, fsEmpty, [], []⟩ :=
  rotate_log_null_handle_noop { lgSample with file := none } fsEmpty 5 rfl

/-- C2 is refuted by the source: `log_message` renders the file line by
passing the SAME `va_list` to `vfprintf` (logger.h:215) that `vprintf`
already consumed (logger.h:203), with no `va_copy`; after `vprintf` the
list is indeterminate (C11 7.16.1), so the file line's message is NOT the
text rendered from the format string and its arguments.  At the input
`log_message(&lg, ERROR, "%d", 42)` with the file sink active, the file
message tracks the undefined evaluation (two different outcomes of the
indeterminate read give two different file lines) while the console line
is unaffected. -/
theorem log_message_file_line_indeterminate :
    (log_message lgSample .ERROR tmSample 1 2 "%d" [FmtArg.argInt 42] "A").console =
      (log_message lgSample .ERROR tmSample 1 2 "%d" [FmtArg.argInt 42] "B").console
  ∧ (log_message lgSample .ERROR tmSample 1 2 "%d" [FmtArg.argInt 42] "A").fileOut ≠
      (log_message lgSample .ERROR tmSample 1 2 "%d" [FmtArg.argInt 42] "B").fileOut
  ∧ ((log_message lgSample .ERROR tmSample 1 2 "%d" [FmtArg.argInt 42] "A").console.map
      LogLine.message = some "42")
  ∧ ((log_message lgSample .ERROR tmSample 1 2 "%d" [FmtArg.argInt 42] "A").fileOut.map
      LogLine.message = some "A") := by
  decide

/-- C3: when the handle is open on `file_path` and the filesystem
cooperates, `rotate_log` with current size at least `max_size` moves the
pre-rotation content to `<path>.old`, leaves a fresh empty file at the
path with the logger holding a handle on it, and reports nothing; with
current size below `max_size` it only performs the size check and changes
nothing. -/
theorem rotate_log_spec (lg : Logger) (fs : FS) (max_size : Int) (c : String)
    (hf : lg.file = some lg.file_path)
    (hd : fs.disk lg.file_path = some c)
    (hr : fs.renameFails lg.file_path (lg.file_path ++ ".old") = false)
    (ho : fs.openFails lg.file_path = false) :
    (max_size ≤ (c.length : Int) →
        (rotate_log lg max_size fs).fs.disk (lg.file_path ++ ".old") = some c
      ∧ (rotate_log lg max_size fs).fs.disk lg.file_path = some ""
      ∧ (rotate_log lg max_size fs).logger = { lg with file := some lg.file_path }
      ∧ (rotate_log lg max_size fs).stderr = [])
  ∧ ((c.length : Int) < max_size →
      rotate_log lg max_size fs = ⟨lg, fs, [FSEvent.sizeCheck], []⟩) := by
  have hne : lg.file_path ≠ lg.file_path ++ ".old" := append_old_ne lg.file_path
  constructor
  · intro hm
    have hrot : rotate_log lg max_size fs =
        ⟨{ lg with file := some lg.file_path },
          { fs with disk := fun p => if p = lg.file_path then some ""
              else if p = lg.file_path ++ ".old" then some c
              else if p = lg.file_path then none else fs.disk p },
          [.sizeCheck, .closeHandle, .renameFile, .openFile], []⟩ := by
      unfold rotate_log
      rw [hf]
      simp only [Option.getD_some, hd]
      rw [if_pos hm]
      unfold fsRename
      rw [if_neg (by simp [hr]), hd]
      unfold fopenA
      simp [ho, hne]
    rw [hrot]
    refine ⟨?_, ?_, rfl, rfl⟩
    · simp [hne, (Ne.symm hne : lg.file_path ++ ".old" ≠ lg.file_path)]
    · simp
  · intro hm
    unfold rotate_log
    rw [hf]
    simp only [Option.getD_some, hd]
    rw [if_neg (by omega)]

/-- Filesystem holding a 10-byte log file, with no failing operations. -/
def fsRotSample : FS :=
  ⟨fun p => if p = "app.log" then some "0123456789" else none,
    fun _ => false, fun _ _ => false⟩

/-- Witness for `rotate_log_spec`: a 10-byte file rotated at threshold 5. -/
theorem rotate_log_spec_witness :
    (rotate_log lgSample 5 fsRotSample).fs.disk "app.log.old" = some "0123456789"
  ∧ (rotate_log lgSample 5 fsRotSample).fs.disk "app.log" = some ""
  ∧ (rotate_log lgSample 5 fsRotSample).logger = { lgSample with file := some "app.log" }
  ∧ (rotate_log lgSample 5 fsRotSample).stderr = [] :=
  (rotate_log_spec lgSample fsRotSample 5 "0123456789" rfl rfl rfl rfl).1 (by decide)

/-- C5: when file logging is requested and the eager `fopen` fails,
`init_logger` reports the failure on stderr (and returns normally), leaves
the handle NULL, console logging still works with the usual gating, every
file emission silently no-ops, and a later `set_log_file` against a
working path reopens the sink. -/
theorem init_logger_open_failure (cl fl : LogLevel) (fp : String) (dfmt : Option String)
    (itid ipid : Bool) (fs : FS) (hOpen : fs.openFails fp = true) :
    (init_logger cl fl fp dfmt true itid ipid fs).logger.file = none
  ∧ (init_logger cl fl fp dfmt true itid ipid fs).stderr =
      ["Error opening log file " ++ fp ++ "\n"]
  ∧ (init_logger cl fl fp dfmt true itid ipid fs).fs = fs
  ∧ (∀ level t tid pid format args indet,
      (log_message (init_logger cl fl fp dfmt true itid ipid fs).logger
          level t tid pid format args indet).fileOut = none
    ∧ ((log_message (init_logger cl fl fp dfmt true itid ipid fs).logger
          level t tid pid format args indet).console.isSome = true ↔
        cl.toNat ≤ level.toNat ∨ fl.toNat ≤ level.toNat))
  ∧ (∀ fs2 p2, fs2.openFails p2 = false →
      (set_log_file (init_logger cl fl fp dfmt true itid ipid fs).logger p2 fs2).logger.file =
        some p2) := by
  have hinit : init_logger cl fl fp dfmt true itid ipid fs =
      ⟨{ console_level := cl, file_level := fl, file := none, file_path := fp,
          date_format := dfmt.getD "%Y-%m-%d %H:%M:%S", prefixStr := "",
          log_to_file := true, include_thread_id := itid, include_process_id := ipid,
          tags := [] }, fs, ["Error opening log file " ++ fp ++ "\n"]⟩ := by
    unfold init_logger fopenA
    simp [hOpen]
  rw [hinit]
  refine ⟨rfl, rfl, rfl, ?_, ?_⟩
  · intro level t tid pid format args indet
    constructor
    · unfold log_message
      split
      · rfl
      · simp
    · by_cases hgate : level.toNat < cl.toNat ∧ level.toNat < fl.toNat
      · have hno : ¬(cl.toNat ≤ level.toNat ∨ fl.toNat ≤ level.toNat) := by omega
        simp [log_message, hgate, hno]
      · have hor : cl.toNat ≤ level.toNat ∨ fl.toNat ≤ level.toNat := by omega
        simp [log_message, hgate, hor]
  · intro fs2 p2 h2
    unfold set_log_file fopenA
    rcases hdk : fs2.disk p2 with - | c <;> simp [h2, hdk]

/-- Filesystem on which every `fopen` fails. -/
def fsOpenStuck : FS := ⟨fun _ => none, fun _ => true, fun _ _ => false⟩

/-- Witness for `init_logger_open_failure`: INFO/WARNING logger whose file
cannot be opened; a WARNING message reaches the console but not the file,
and repair through `set_log_file` works. -/
theorem init_logger_open_failure_witness :
    (init_logger .INFO .WARNING "out.log" none true false false fsOpenStuck).logger.file = none
  ∧ (log_message (init_logger .INFO .WARNING "out.log" none true false false
        fsOpenStuck).logger .WARNING tmSample 1 2 "y" [] "").fileOut = none
  ∧ (set_log_file (init_logger .INFO .WARNING "out.log" none true false false
        fsOpenStuck).logger "fixed.log" fsEmpty).logger.file = some "fixed.log" := by
  have h := init_logger_open_failure .INFO .WARNING "out.log" none false false fsOpenStuck rfl
  exact ⟨h.1, (h.2.2.2.1 .WARNING tmSample 1 2 "y" [] "").1, h.2.2.2.2 fsEmpty "fixed.log" rfl⟩

/-- Filesystem holding a 10-byte log file, on which every `rename` fails
and every `fopen` succeeds. -/
def fsRenameStuck : FS :=
  ⟨fun p => if p = "app.log" then some "0123456789" else none,
    fun _ => false, fun _ _ => true⟩

/-- Counterexample to C6: rotating a size-10 file at threshold 5 while
`rename` fails is NOT surfaced — nothing is printed to stderr — and file
logging is NOT disabled: the logger keeps a live handle on the original
path. -/
theorem rotate_log_rename_failure_ignored :
    fsRenameStuck.renameFails "app.log" "app.log.old" = true
  ∧ (rotate_log lgSample 5 fsRenameStuck).stderr = []
  ∧ (rotate_log lgSample 5 fsRenameStuck).logger.file = some "app.log"
  ∧ (rotate_log lgSample 5 fsRenameStuck).fs.disk "app.log" = some "0123456789" :=
  ⟨rfl, rfl, rfl, rfl⟩

/-- C6 amended: only a failed REOPEN during rotation is surfaced (stderr
message) and disables file logging by leaving the handle NULL; a failed
RENAME is silently ignored and file logging continues on the original
file; in every triggered rotation the stored handle is exactly the result
of the reopen, so no closed handle is retained. -/
theorem rotate_log_failure_handling (lg : Logger) (fs : FS) (max_size : Int) (c : String)
    (hf : lg.file = some lg.file_path)
    (hd : fs.disk lg.file_path = some c)
    (hm : max_size ≤ (c.length : Int)) :
    (fs.openFails lg.file_path = true →
        (rotate_log lg max_size fs).logger.file = none
      ∧ (rotate_log lg max_size fs).stderr =
          ["Error opening log file " ++ lg.file_path ++ "\n"])
  ∧ (fs.renameFails lg.file_path (lg.file_path ++ ".old") = true →
      fs.openFails lg.file_path = false →
        (rotate_log lg max_size fs).stderr = []
      ∧ (rotate_log lg max_size fs).logger.file = some lg.file_path
      ∧ (rotate_log lg max_size fs).fs.disk = fs.disk)
  ∧ (rotate_log lg max_size fs).logger.file =
      (fopenA (fsRename fs lg.file_path (lg.file_path ++ ".old")).1 lg.file_path).2 := by
  refine ⟨?_, ?_, ?_⟩
  · intro ho
    have hofail : fopenA (fsRename fs lg.file_path (lg.file_path ++ ".old")).1 lg.file_path =
        ((fsRename fs lg.file_path (lg.file_path ++ ".old")).1, none) := by
      unfold fsRename fopenA
      rcases hrf : fs.renameFails lg.file_path (lg.file_path ++ ".old") with - | -
      · simp [hd, ho, hrf]
      · simp [ho, hrf]
    unfold rotate_log
    rw [hf]
    simp only [Option.getD_some, hd]
    rw [if_pos hm, hofail]
    exact ⟨rfl, rfl⟩
  · intro hrf ho
    have hren : fsRename fs lg.file_path (lg.file_path ++ ".old") = (fs, false) := by
      unfold fsRename
      simp [hrf]
    unfold rotate_log
    rw [hf]
    simp only [Option.getD_some, hd]
    rw [if_pos hm, hren]
    unfold fopenA
    simp [ho, hd]
  · unfold rotate_log
    rw [hf]
    simp only [Option.getD_some, hd]
    rw [if_pos hm]
    rcases hfo : fopenA (fsRename fs lg.file_path (lg.file_path ++ ".old")).1 lg.file_path
      with ⟨fs2, - | h2⟩ <;> simp [hfo]

/-- Witness for `rotate_log_failure_handling`: the reopen-failure branch on
a filesystem where the rename succeeds but the reopen fails. -/
def fsReopenStuck : FS :=
  ⟨fun p => if p = "app.log" then some "0123456789" else none,
    fun p => p = "app.log", fun _ _ => false⟩

/-- Witness theorem for `rotate_log_failure_handling`. -/
theorem rotate_log_failure_handling_witness :
    (rotate_log lgSample 5 fsReopenStuck).logger.file = none
  ∧ (rotate_log lgSample 5 fsReopenStuck).stderr = ["Error opening log file app.log\n"] := by
  have h := (rotate_log_failure_handling lgSample fsReopenStuck 5 "0123456789"
    rfl rfl (by decide)).1 (by decide)
  exact ⟨h.1, h.2.trans (by decide)⟩

/-- Resource view of a freshly initialized logger: handle 10 open,
the three strdup'd strings at allocations 1, 2, 3. -/
def lgResSample : LoggerRes := ⟨some 10, 1, 2, 3⟩

/-- Resource state matching `lgResSample`, with no faults yet. -/
def resSample : ResState := ⟨[10], [1, 2, 3], 0⟩

/-- Counterexample to C4: the first `close_logger` is fault-free, but
because it leaves every field of the struct unchanged, a second
`close_logger` on the same logger re-closes the stale handle and re-frees
the three strings: four faults (one double-fclose, three double-frees). -/
theorem close_logger_double_close_faults :
    (close_logger lgResSample resSample).2.faults = 0
  ∧ (close_logger (close_logger lgResSample resSample).1
      (close_logger lgResSample resSample).2).2.faults = 4 := by
  decide

/-- C4 amended: `close_logger` releases the handle and the three owned
strings without faulting once, but it does not reset any field of the
struct (no NULLing), so it is NOT idempotent: a second call on the
already-closed logger commits four faults (a double-fclose and three
double-frees). -/
theorem close_logger_not_idempotent (lg : LoggerRes) (s : ResState) (hFile : Nat)
    (hf : lg.file = some hFile) (hh : hFile ∈ s.openFiles)
    (hnop : s.openFiles.Nodup) (hnal : s.liveAllocs.Nodup)
    (h1 : lg.file_path ∈ s.liveAllocs) (h2 : lg.date_format ∈ s.liveAllocs)
    (h3 : lg.prefixPtr ∈ s.liveAllocs)
    (d12 : lg.file_path ≠ lg.date_format) (d13 : lg.file_path ≠ lg.prefixPtr)
    (d23 : lg.date_format ≠ lg.prefixPtr) :
    (close_logger lg s).1 = lg
  ∧ (close_logger lg s).2.faults = s.faults
  ∧ (close_logger (close_logger lg s).1 (close_logger lg s).2).2.faults = s.faults + 4 := by
  have h2' : lg.date_format ∈ s.liveAllocs.erase lg.file_path :=
    (List.mem_erase_of_ne (Ne.symm d12)).mpr h2
  have h3' : lg.prefixPtr ∈ (s.liveAllocs.erase lg.file_path).erase lg.date_format :=
    (List.mem_erase_of_ne (Ne.symm d23)).mpr ((List.mem_erase_of_ne (Ne.symm d13)).mpr h3)
  have hstep : close_logger lg s =
      (lg, ⟨s.openFiles.erase hFile,
        ((s.liveAllocs.erase lg.file_path).erase lg.date_format).erase lg.prefixPtr,
        s.faults⟩) := by
    unfold close_logger cFclose cFree
    rw [hf]
    simp [hh, h1, h2', h3']
  have hno1 : hFile ∉ s.openFiles.erase hFile := hnop.not_mem_erase
  have hnoA :
      lg.file_path ∉ ((s.liveAllocs.erase lg.file_path).erase lg.date_format).erase lg.prefixPtr :=
    fun hm => hnal.not_mem_erase
      (List.mem_of_mem_erase (List.mem_of_mem_erase hm))
  have hnoB :
      lg.date_format ∉ ((s.liveAllocs.erase lg.file_path).erase lg.date_format).erase lg.prefixPtr :=
    fun hm => (hnal.erase lg.file_path).not_mem_erase (List.mem_of_mem_erase hm)
  have hnoC :
      lg.prefixPtr ∉ ((s.liveAllocs.erase lg.file_path).erase lg.date_format).erase lg.prefixPtr :=
    ((hnal.erase lg.file_path).erase lg.date_format).not_mem_erase
  refine ⟨rfl, ?_, ?_⟩
  · rw [hstep]
  · rw [hstep]
    unfold close_logger cFclose cFree
    rw [hf]
    have hnoB' : lg.date_format ∉
        (((s.liveAllocs.erase lg.file_path).erase lg.date_format).erase lg.prefixPtr) := hnoB
    simp [hno1, hnoA, hnoB, hnoC]

/-- Witness for `close_logger_not_idempotent` at the concrete resource
state `lgResSample`/`resSample`. -/
theorem close_logger_not_idempotent_witness :
    (close_logger lgResSample resSample).1 = lgResSample
  ∧ (close_logger (close_logger lgResSample resSample).1
      (close_logger lgResSample resSample).2).2.faults = resSample.faults + 4 :=
  ⟨(close_logger_not_idempotent lgResSample resSample 10 rfl (by decide) (by decide)
      (by decide) (by decide) (by decide) (by decide) (by decide) (by decide) (by decide)).1,
    (close_logger_not_idempotent lgResSample resSample 10 rfl (by decide) (by decide)
      (by decide) (by decide) (by decide) (by decide) (by decide) (by decide) (by decide)).2.2⟩

/-- C8: a NULL `date_format` at initialization defaults to
`"%Y-%m-%d %H:%M:%S"`, whose rendering at any time is exactly the
`YYYY-MM-DD HH:MM:SS` layout (zero-padded fields); and after
`set_date_format` every subsequent `log_message` stamps both its console
and its file line with the rendering of the newly set pattern. -/
theorem date_format_default_and_custom (cl fl : LogLevel) (fp : String)
    (ltf itid ipid : Bool) (fs : FS) (t : Tm) (p : String) (lg : Logger)
    (level : LogLevel) (tid pid : Nat) (format : String) (args : List FmtArg)
    (indet : String) (_hy : t.year < 10000) :
    (init_logger cl fl fp none ltf itid ipid fs).logger.date_format = "%Y-%m-%d %H:%M:%S"
  ∧ strftimeBuf 20 "%Y-%m-%d %H:%M:%S" t =
      some (pad4 t.year ++ "-" ++ pad2 t.month ++ "-" ++ pad2 t.day ++ " " ++
        pad2 t.hour ++ ":" ++ pad2 t.minute ++ ":" ++ pad2 t.second)
  ∧ (∀ line, (log_message (set_date_format lg p) level t tid pid format args indet).console =
        some line → line.timestamp = strftimeBuf 20 p t)
  ∧ (∀ line, (log_message (set_date_format lg p) level t tid pid format args indet).fileOut =
        some line → line.timestamp = strftimeBuf 20 p t) := by
  refine ⟨?_, ?_, ?_, ?_⟩
  · unfold init_logger fopenA
    rcases ho : fs.openFails fp with - | -
    · rcases hdk : fs.disk fp with - | c <;> cases ltf <;> simp [ho, hdk]
    · cases ltf <;> simp [ho]
  · rfl
  · intro line hline
    unfold log_message at hline
    split at hline
    · exact absurd hline (by simp)
    · simp only [Option.some.injEq] at hline
      rw [← hline]
      rfl
  · intro line hline
    unfold log_message at hline
    split at hline
    · exact absurd hline (by simp)
    · simp only at hline
      split at hline
      · simp only [Option.some.injEq] at hline
        rw [← hline]
        rfl
      · exact absurd hline (by simp)

/-- Witness for `date_format_default_and_custom`: the default pattern at
2024-05-07 09:30:05. -/
theorem date_format_default_and_custom_witness :
    strftimeBuf 20 "%Y-%m-%d %H:%M:%S" tmSample = some "2024-05-07 09:30:05" :=
  ((date_format_default_and_custom .INFO .WARNING "app.log" true true false fsEmpty
      tmSample "%Y" lgSample .ERROR 1 2 "x" [] "" (by decide)).2.1).trans (by decide)
